import Mathlib

/-!
# Shallow embedding of rust-slurp (`src/main.rs`)

The program is a Wayland region selector: it overlays every output, tracks a
pointer drag, and on commit prints one line `"{x},{y} {width}x{height}"` and
exits 0; every cancellation path exits 1 without printing.

Modelling choices:
* Pointer coordinates are `f64` in the source.  All arithmetic the program
  performs on them (`+`, `-`, `min`, `abs`, comparison with `1.0`, truncation
  `as i32`) is exact for the value ranges the Wayland protocol delivers
  (`wl_fixed` 24.8 fixed-point locals, `i32` logical origins: every
  intermediate fits in well under 53 mantissa bits with 8 fractional bits),
  so coordinates are embedded as `Rat` with exact arithmetic.
* `i32` / `u32` protocol fields are `Int` / `Nat`.
* Wayland proxy identity (`surface.id()`, `output.id()`, …) is embedded as the
  index of the output in `State.outputs`: the program only ever compares ids
  to locate that index with `position(...)`.
* A shared-memory allocation (`tempfile` + `mmap` + `create_pool`) is given a
  fresh identity token `poolId`, drawn from a counter `nextAllocId` carried by
  the state, so "same mapping" versus "new mapping" is observable.
* Side effects are reified: `Effect.print` for `println!` on stdout and
  `Effect.repaint i` for the body of `State::draw_on_output(i)` actually
  painting (which happens exactly when output `i` has a buffer).
-/

/-- Rust `f64 as i32`: truncation toward zero, saturating at the `i32`
range bounds. -/
def f64_as_i32 (q : Rat) : Int :=
  let t : Int := if 0 ≤ q then q.floor else q.ceil
  max (-(2 ^ 31)) (min (2 ^ 31 - 1) t)

/-- Model of `cairo::Format::ARgb32.stride_for_width(w)`: 32 bits per pixel, rows
aligned to 4 bytes, hence exactly `4 * w` bytes. -/
def stride_for_width (w : Nat) : Int := 4 * (w : Int)

/-- A selection rectangle `(x, y, width, height)`; the source uses a
4-tuple `(f64, f64, f64, f64)`. -/
structure SelectionBox where
  x : Rat
  y : Rat
  w : Rat
  h : Rat
  deriving Repr, DecidableEq

/-- Source function `get_selection_box` (src/main.rs:203-209): per-axis min and absolute
difference of the two corner points. -/
def get_selection_box (p1 p2 : Rat × Rat) : SelectionBox :=
  { x := min p1.1 p2.1
    y := min p1.2 p2.2
    w := |p1.1 - p2.1|
    h := |p1.2 - p2.2| }

/-- The local-to-global coordinate translation inlined at
src/main.rs:294-295 and 305-306: `global = output_origin + local`. -/
def to_global (origin : Int × Int) (p : Rat × Rat) : Rat × Rat :=
  ((origin.1 : Rat) + p.1, (origin.2 : Rat) + p.2)

/-- The global-to-local translation inlined at src/main.rs:156-157 and
185-186: `local = global - output_origin`. -/
def to_local (origin : Int × Int) (p : Rat × Rat) : Rat × Rat :=
  (p.1 - (origin.1 : Rat), p.2 - (origin.2 : Rat))

/-- Source `struct Buffer` (src/main.rs:106-112).  `poolId` is the identity of the
shared-memory allocation (file + mmap + wl_shm pool); `size` is the byte
length passed to `set_len` and `create_pool`. -/
structure Buffer where
  poolId : Nat
  width : Int
  height : Int
  size : Int
  deriving Repr, DecidableEq

/-- Source `struct OutputState` (src/main.rs:96-104), dropping the raw proxy
handles (identity is the index in `State.outputs`). -/
structure OutputState where
  logical_pos : Int × Int
  size : Nat × Nat
  buffer : Option Buffer
  deriving Repr, DecidableEq

/-- Source `struct State` (src/main.rs:78-94), dropping the proxy handles and the
queue handle; `nextAllocId` is the model's fresh-allocation counter. -/
structure State where
  running : Bool
  exit_code : Int
  outputs : List OutputState
  start_pos : Option (Rat × Rat)
  current_pos : Rat × Rat
  current_output : Option Nat
  selections : List SelectionBox
  nextAllocId : Nat
  deriving Repr, DecidableEq

/-- The state `main` builds before the first roundtrip (src/main.rs:35-51). -/
def initState : State :=
  { running := true
    exit_code := 0
    outputs := []
    start_pos := none
    current_pos := (0, 0)
    current_output := none
    selections := []
    nextAllocId := 0 }

/-- Observable side effects of one event dispatch: a line printed to stdout,
or output `i` being repainted (the body of `draw_on_output(i)` runs, which
requires output `i` to have a buffer). -/
inductive Effect where
  | print (line : String)
  | repaint (i : Nat)
  deriving Repr, DecidableEq

/-- The events the dispatch handlers of src/main.rs react to.  Surfaces and
outputs are referred to by the index the handlers would recover via
`position(|o| o.….id() == ….id())`; an index ≥ `outputs.length` models an
id that matches no tracked output. -/
inductive Event where
  /-- Event `wl_registry::Event::Global` with interface `"wl_output"`
  (src/main.rs:240-260): a new output is registered. -/
  | registryOutput
  /-- Event `wl_pointer::Event::Enter` on the surface of output `i`
  (src/main.rs:290-298). -/
  | pointerEnter (i : Nat) (surface_x surface_y : Rat)
  /-- Event `wl_pointer::Event::Leave` (src/main.rs:299-301). -/
  | pointerLeave
  /-- Event `wl_pointer::Event::Motion` (src/main.rs:302-311). -/
  | pointerMotion (surface_x surface_y : Rat)
  /-- Event `wl_pointer::Event::Button` (src/main.rs:313-337); `pressed` is
  whether the button state is `Pressed`. -/
  | pointerButton (button : Nat) (pressed : Bool)
  /-- Event `wl_keyboard::Event::Key` (src/main.rs:278-283). -/
  | keyboardKey (key : Nat) (pressed : Bool)
  /-- Event `zwlr_layer_surface_v1::Event::Configure` for the layer surface of
  output `i` (src/main.rs:356-375). -/
  | layerConfigure (i : Nat) (width height : Nat)
  /-- Event `zwlr_layer_surface_v1::Event::Closed` (src/main.rs:377-380). -/
  | layerClosed
  /-- Event `wl_output::Event::Mode` for output `i` (src/main.rs:386-394). -/
  | outputMode (i : Nat) (width height : Int)
  /-- Event `zxdg_output_v1::Event::LogicalPosition` for output `i`
  (src/main.rs:396-418). -/
  | xdgLogicalPosition (i : Nat) (x y : Int)
  deriving Repr, DecidableEq

/-- The repaints performed by `State::draw` (src/main.rs:115-119): it calls
`draw_on_output i` for every `i`, and each call paints iff output `i`
currently has a buffer (src/main.rs:126-127). -/
def drawEffects (s : State) : List Effect :=
  (List.range s.outputs.length).filterMap fun i =>
    match s.outputs[i]? with
    | some o => if o.buffer.isSome then some (Effect.repaint i) else none
    | none => none

/-- The repaint performed by one `State::draw_on_output i` call. -/
def drawOnOutputEffects (s : State) (i : Nat) : List Effect :=
  match s.outputs[i]? with
  | some o => if o.buffer.isSome then [Effect.repaint i] else []
  | none => []

/-- The stdout line of src/main.rs:322:
`println!("{},{} {}x{}", x as i32, y as i32, w as i32, h as i32)`. -/
def formatSelection (sel : SelectionBox) : String :=
  toString (f64_as_i32 sel.x) ++ "," ++ toString (f64_as_i32 sel.y) ++ " "
    ++ toString (f64_as_i32 sel.w) ++ "x" ++ toString (f64_as_i32 sel.h)

/-- A freshly registered output (src/main.rs:251-259). -/
def newOutputState : OutputState :=
  { logical_pos := (0, 0), size := (0, 0), buffer := none }

/-- The buffer allocated on a configure with new dimensions
(src/main.rs:365-373): a fresh file of `stride * height` bytes, mapped and
wrapped in a fresh pool. -/
def allocBuffer (allocId : Nat) (width height : Nat) : Buffer :=
  { poolId := allocId
    width := (width : Int)
    height := (height : Int)
    size := stride_for_width width * (height : Int) }

/-- One event dispatch: the union of the `Dispatch` impls of src/main.rs,
returning the updated state and the effects emitted. -/
def step (s : State) (e : Event) : State × List Effect :=
  match e with
  | .registryOutput =>
      ({ s with outputs := s.outputs ++ [newOutputState] }, [])
  | .pointerEnter i sx sy =>
      match s.outputs[i]? with
      | some o =>
          let s' := { s with
            current_output := some i
            current_pos := ((o.logical_pos.1 : Rat) + sx, (o.logical_pos.2 : Rat) + sy) }
          (s', drawEffects s')
      | none => (s, [])
  | .pointerLeave =>
      ({ s with current_output := none }, [])
  | .pointerMotion sx sy =>
      match s.current_output with
      | some idx =>
          match s.outputs[idx]? with
          | some o =>
              let s' := { s with
                current_pos := ((o.logical_pos.1 : Rat) + sx, (o.logical_pos.2 : Rat) + sy) }
              if s'.start_pos.isSome then (s', drawEffects s') else (s', [])
          | none => (s, [])
      | none => (s, [])
  | .pointerButton button pressed =>
      if button = 272 then
        if pressed then
          ({ s with start_pos := some s.current_pos }, [])
        else
          match s.start_pos with
          | some start =>
              let sel := get_selection_box start s.current_pos
              if 1 < sel.w ∧ 1 < sel.h then
                ({ s with start_pos := none, exit_code := 0, running := false },
                 [Effect.print (formatSelection sel)])
              else
                ({ s with start_pos := none, exit_code := 1, running := false }, [])
          | none => (s, [])
      else if button = 273 then
        ({ s with running := false, exit_code := 1 }, [])
      else (s, [])
  | .keyboardKey key pressed =>
      if key = 1 ∧ pressed = true then
        ({ s with running := false, exit_code := 1 }, [])
      else (s, [])
  | .layerConfigure i width height =>
      match s.outputs[i]? with
      | some o =>
          match o.buffer with
          | some b =>
              if b.width = (width : Int) ∧ b.height = (height : Int) then
                (s, drawOnOutputEffects s i)
              else
                let o' := { o with buffer := some (allocBuffer s.nextAllocId width height) }
                let s' := { s with
                  outputs := s.outputs.set i o'
                  nextAllocId := s.nextAllocId + 1 }
                (s', drawOnOutputEffects s' i)
          | none =>
              let o' := { o with buffer := some (allocBuffer s.nextAllocId width height) }
              let s' := { s with
                outputs := s.outputs.set i o'
                nextAllocId := s.nextAllocId + 1 }
              (s', drawOnOutputEffects s' i)
      | none => (s, [])
  | .layerClosed =>
      ({ s with running := false, exit_code := 1 }, [])
  | .outputMode i width height =>
      match s.outputs[i]? with
      | some o =>
          let o' := { o with size := (width.toNat, height.toNat) }
          ({ s with outputs := s.outputs.set i o' }, [])
      | none => (s, [])
  | .xdgLogicalPosition i x y =>
      match s.outputs[i]? with
      | some o =>
          let o' := { o with logical_pos := (x, y) }
          ({ s with outputs := s.outputs.set i o' }, [])
      | none => (s, [])

/-- The dispatch loop of src/main.rs:71-73: events are processed in order
while `running` holds; effects are concatenated in emission order. -/
def run (s : State) (es : List Event) : State × List Effect :=
  match es with
  | [] => (s, [])
  | e :: rest =>
      if s.running then
        let p := step s e
        let q := run p.1 rest
        (q.1, p.2 ++ q.2)
      else (s, [])

/-- The stdout lines among a list of effects. -/
def printsOf (effs : List Effect) : List String :=
  effs.filterMap fun e =>
    match e with
    | .print line => some line
    | .repaint _ => none

/-- The five globals `main` requires after the first roundtrip
(src/main.rs:56): `true` means the corresponding `Option` is `Some`. -/
structure Globals where
  compositor : Bool
  shm : Bool
  layer_shell : Bool
  seat : Bool
  xdg_output_manager : Bool
  deriving Repr, DecidableEq

/-- The second stderr line of src/main.rs:58-64. -/
def missingLine (g : Globals) : String :=
  "Missing: " ++ (if g.compositor then "" else "wl_compositor")
    ++ " " ++ (if g.shm then "" else "wl_shm")
    ++ " " ++ (if g.layer_shell then "" else "zwlr_layer_shell_v1")
    ++ " " ++ (if g.seat then "" else "wl_seat")
    ++ " " ++ (if g.xdg_output_manager then "" else "zxdg_output_manager_v1")

/-- The capability check of src/main.rs:56-66: if any required global is
absent, the stderr lines and the exit status 1; otherwise `none` (startup
continues and the overlay is shown). -/
def capabilityCheck (g : Globals) : Option (List String × Int) :=
  if g.compositor = false ∨ g.shm = false ∨ g.layer_shell = false
      ∨ g.seat = false ∨ g.xdg_output_manager = false then
    some (["Error: Your compositor does not support the required Wayland protocols.",
           missingLine g], 1)
  else none

/-- Events that can change `current_pos` (pointer enter and motion). -/
def touchesCursor : Event → Bool
  | .pointerEnter _ _ _ => true
  | .pointerMotion _ _ => true
  | _ => false

/-- Scenario A of the spec: one output at the origin, press at global
`(10,10)`, move to `(50,40)`, release. -/
def sceneA : List Event :=
  [Event.registryOutput, Event.layerConfigure 0 1920 1080,
   Event.pointerEnter 0 10 10, Event.pointerButton 272 true,
   Event.pointerMotion 50 40, Event.pointerButton 272 false]

/-- The same drag performed on an output whose logical origin is
`(-100, -100)`: global coordinates are negative. -/
def sceneNegativeOrigin : List Event :=
  [Event.registryOutput, Event.xdgLogicalPosition 0 (-100) (-100),
   Event.pointerEnter 0 5 5, Event.pointerButton 272 true,
   Event.pointerMotion 50 40, Event.pointerButton 272 false]

/-- A click before any pointer event: press then immediate release. -/
def clickScene : List Event :=
  [Event.pointerButton 272 true, Event.pointerButton 272 false]

/-- Two outputs, both configured (so both have buffers), pointer on output
0, drag in progress. -/
def twoOutputDragState : State :=
  (run initState
    [Event.registryOutput, Event.registryOutput,
     Event.layerConfigure 0 100 100, Event.layerConfigure 1 100 100,
     Event.pointerEnter 0 3 3, Event.pointerButton 272 true]).1

/-- Scenario D of the spec: two outputs, the second at origin `(1920, 0)`,
pointer enters the second at local `(5, 5)`. -/
def sceneEnterSecond : List Event :=
  [Event.registryOutput, Event.registryOutput,
   Event.xdgLogicalPosition 1 1920 0, Event.pointerEnter 1 5 5]

/-- A state mid-drag: anchor `(10,10)`, cursor `(50,40)`. -/
def dragState : State :=
  { initState with start_pos := some (10, 10), current_pos := (50, 40) }

/-- A state with one output owning a 100×50 buffer from allocation 0. -/
def bufState : State :=
  { initState with
      outputs := [{ logical_pos := (0, 0), size := (0, 0),
                    buffer := some (allocBuffer 0 100 50) }]
      nextAllocId := 1 }

/-- All five required globals absent. -/
def allMissing : Globals :=
  { compositor := false, shm := false, layer_shell := false,
    seat := false, xdg_output_manager := false }

/-- Convenience constructor for `Globals`. -/
def mkGlobals (c sh l se x : Bool) : Globals :=
  { compositor := c, shm := sh, layer_shell := l, seat := se, xdg_output_manager := x }

/-! ## Theorems -/

/-- On `ℚ`, the smaller corner plus the absolute difference is the larger
corner. -/
theorem min_add_abs_sub_eq_max (a b : Rat) : min a b + |a - b| = max a b := by
  rcases le_total a b with h | h
  · rw [min_eq_left h, max_eq_right h, abs_of_nonpos (by linarith)]; ring
  · rw [min_eq_right h, max_eq_left h, abs_of_nonneg (by linarith)]; ring

/-- Lemma: `Rat.floor` agrees with the `FloorRing` floor on `ℚ`. -/
theorem Rat_floor_eq_intFloor (q : Rat) : q.floor = Int.floor q := by
  rw [Rat.floor_def', Rat.floor_def]

/-- Truncating a rational strictly greater than 1 with `f64 as i32`
semantics yields an integer at least 1. -/
theorem one_le_f64_as_i32 (q : Rat) (h : 1 < q) : 1 ≤ f64_as_i32 q := by
  unfold f64_as_i32
  have h0 : 0 ≤ q := by linarith
  simp only [if_pos h0]
  have hf : (1 : Int) ≤ q.floor := by
    rw [Rat_floor_eq_intFloor]
    exact Int.le_floor.mpr (by push_cast; linarith)
  exact le_trans (le_min (by norm_num) hf) (le_max_right _ _)

/-- Dispatching an event that is neither a pointer enter nor a pointer
motion leaves `current_pos` unchanged. -/
theorem step_current_pos_of_not_cursor (s : State) (e : Event)
    (h : touchesCursor e = false) :
    (step s e).1.current_pos = s.current_pos := by
  cases e with
  | registryOutput => rfl
  | pointerEnter i sx sy => simp [touchesCursor] at h
  | pointerLeave => rfl
  | pointerMotion sx sy => simp [touchesCursor] at h
  | pointerButton b pr =>
      simp only [step]
      repeat' split
      all_goals rfl
  | keyboardKey k pr =>
      simp only [step]
      repeat' split
      all_goals rfl
  | layerConfigure i w hgt =>
      simp only [step]
      repeat' split
      all_goals rfl
  | layerClosed => rfl
  | outputMode i w hgt =>
      simp only [step]
      repeat' split
      all_goals rfl
  | xdgLogicalPosition i x y =>
      simp only [step]
      repeat' split
      all_goals rfl

/-- Running any sequence of events without pointer enter/motion leaves
`current_pos` unchanged. -/
theorem run_current_pos_of_no_cursor_events (s : State) (es : List Event)
    (h : ∀ e ∈ es, touchesCursor e = false) :
    (run s es).1.current_pos = s.current_pos := by
  induction es generalizing s with
  | nil => rfl
  | cons e rest ih =>
      simp only [run]
      by_cases hr : s.running = true
      · simp only [hr, if_true]
        rw [ih _ (fun e' he' => h e' (List.mem_cons_of_mem _ he')),
          step_current_pos_of_not_cursor s e (h e (List.mem_cons_self _ _))]
      · simp [hr]

/-- C3: for all point pairs `p1, p2`, `get_selection_box` returns a
rectangle with `w ≥ 0`, `h ≥ 0`, `x` and `y` the per-axis minima, `w` and
`h` the absolute differences, and the rectangle spans
`(min p1.x p2.x, min p1.y p2.y)` through `(max p1.x p2.x, max p1.y p2.y)`. -/
theorem get_selection_box_normalized (p1 p2 : Rat × Rat) :
    0 ≤ (get_selection_box p1 p2).w ∧ 0 ≤ (get_selection_box p1 p2).h
      ∧ (get_selection_box p1 p2).x = min p1.1 p2.1
      ∧ (get_selection_box p1 p2).y = min p1.2 p2.2
      ∧ (get_selection_box p1 p2).w = |p1.1 - p2.1|
      ∧ (get_selection_box p1 p2).h = |p1.2 - p2.2|
      ∧ (get_selection_box p1 p2).x + (get_selection_box p1 p2).w = max p1.1 p2.1
      ∧ (get_selection_box p1 p2).y + (get_selection_box p1 p2).h = max p1.2 p2.2 := by
  refine ⟨abs_nonneg _, abs_nonneg _, rfl, rfl, rfl, rfl, ?_, ?_⟩ <;>
    exact min_add_abs_sub_eq_max _ _

/-- C4: `to_local` after `to_global` with the same origin is the identity
on positions; the pointer-enter handler computes exactly `to_global`, so
entering the output at origin `(1920, 0)` at local `(5, 5)` yields global
cursor position `(1925, 5)`. -/
theorem to_global_to_local_identity (origin : Int × Int) (p : Rat × Rat) :
    to_local origin (to_global origin p) = p
      ∧ (run initState sceneEnterSecond).1.current_pos = to_global (1920, 0) (5, 5)
      ∧ to_global (1920, 0) (5, 5) = (1925, 5) := by
  refine ⟨?_, ?_, ?_⟩
  · simp [to_local, to_global]
  · norm_num [run, step, sceneEnterSecond, initState, newOutputState, to_global]
  · norm_num [to_global]

/-- C1 (amended): a primary-button release whose normalized rectangle has
width > 1 and height > 1 prints exactly one line
`"<x>,<y> <width>x<height>"` with the rectangle's coordinates truncated to
integers, stops the loop with exit code 0, and the truncated width and
height are at least 1 (`x`/`y` may be negative on outputs with negative
origins); scenario A (press at `(10,10)`, move to `(50,40)`, release)
prints `"10,10 40x30"` and exits 0. -/
theorem commit_release_prints_selection (s : State) (p : Rat × Rat)
    (hstart : s.start_pos = some p)
    (hw : 1 < (get_selection_box p s.current_pos).w)
    (hh : 1 < (get_selection_box p s.current_pos).h) :
    step s (Event.pointerButton 272 false)
        = ({ s with start_pos := none, exit_code := 0, running := false },
           [Effect.print (formatSelection (get_selection_box p s.current_pos))])
      ∧ 1 ≤ f64_as_i32 (get_selection_box p s.current_pos).w
      ∧ 1 ≤ f64_as_i32 (get_selection_box p s.current_pos).h
      ∧ printsOf (run initState sceneA).2 = ["10,10 40x30"]
      ∧ (run initState sceneA).1.exit_code = 0 := by
  refine ⟨?_, one_le_f64_as_i32 _ hw, one_le_f64_as_i32 _ hh, ?_, ?_⟩
  · simp [step, hstart, hw, hh]
  · norm_num [run, step, sceneA, initState, newOutputState, allocBuffer,
      drawEffects, drawOnOutputEffects, get_selection_box, printsOf]
    decide
  · norm_num [run, step, sceneA, initState, newOutputState, allocBuffer,
      drawEffects, drawOnOutputEffects, get_selection_box]

/-- Witness for C1: the committing release out of `dragState` prints
`"10,10 40x30"`. -/
theorem commit_release_prints_selection_witness :
    printsOf (step dragState (Event.pointerButton 272 false)).2 = ["10,10 40x30"] := by
  have h := commit_release_prints_selection dragState (10, 10) rfl
    (by norm_num [dragState, initState, get_selection_box])
    (by norm_num [dragState, initState, get_selection_box])
  rw [h.1]
  norm_num [printsOf, dragState, initState, get_selection_box]
  decide

/-- Counterexample for C1 as stated: on an output with logical origin
`(-100, -100)`, a committed drag prints `"-95,-95 45x35"` and exits 0, so
the printed `x`, `y` are negative integers, not non-negative ones. -/
theorem commit_can_print_negative_coords :
    (run initState sceneNegativeOrigin).1.exit_code = 0
      ∧ (run initState sceneNegativeOrigin).1.running = false
      ∧ printsOf (run initState sceneNegativeOrigin).2 = ["-95,-95 45x35"]
      ∧ f64_as_i32 (get_selection_box (-95, -95) (-50, -60)).x < 0 := by
  refine ⟨?_, ?_, ?_, ?_⟩
  · norm_num [run, step, sceneNegativeOrigin, initState, newOutputState, allocBuffer,
      drawEffects, drawOnOutputEffects, get_selection_box]
  · norm_num [run, step, sceneNegativeOrigin, initState, newOutputState, allocBuffer,
      drawEffects, drawOnOutputEffects, get_selection_box]
  · norm_num [run, step, sceneNegativeOrigin, initState, newOutputState, allocBuffer,
      drawEffects, drawOnOutputEffects, get_selection_box, printsOf]
    decide
  · norm_num [get_selection_box, f64_as_i32]
    decide

/-- C2: with a drag in progress, a primary-button release stops the loop;
it commits (exit code 0, the selection line printed) exactly when the
normalized rectangle has width > 1 and height > 1, and otherwise cancels
(exit code 1, nothing printed). -/
theorem release_commit_iff_threshold (s : State) (p : Rat × Rat)
    (hstart : s.start_pos = some p) :
    ((step s (Event.pointerButton 272 false)).1.running = false)
      ∧ ((1 < (get_selection_box p s.current_pos).w
            ∧ 1 < (get_selection_box p s.current_pos).h) →
          (step s (Event.pointerButton 272 false)).1.exit_code = 0
            ∧ printsOf (step s (Event.pointerButton 272 false)).2
                = [formatSelection (get_selection_box p s.current_pos)])
      ∧ (¬(1 < (get_selection_box p s.current_pos).w
            ∧ 1 < (get_selection_box p s.current_pos).h) →
          (step s (Event.pointerButton 272 false)).1.exit_code = 1
            ∧ printsOf (step s (Event.pointerButton 272 false)).2 = [])
      ∧ ((step s (Event.pointerButton 272 false)).1.exit_code = 0
          ↔ (1 < (get_selection_box p s.current_pos).w
              ∧ 1 < (get_selection_box p s.current_pos).h)) := by
  by_cases hc : 1 < (get_selection_box p s.current_pos).w
      ∧ 1 < (get_selection_box p s.current_pos).h
  · simp [step, hstart, hc, printsOf]
  · simp [step, hstart, hc, printsOf]

/-- Witness for C2: releasing out of `dragState` ends the loop. -/
theorem release_commit_iff_threshold_witness :
    (step dragState (Event.pointerButton 272 false)).1.running = false :=
  (release_commit_iff_threshold dragState (10, 10) rfl).1

/-- C5: a configure event whose dimensions match the output's existing
buffer leaves the state unchanged (same buffer, same pool, no new
allocation) and just repaints that output; a configure with different
dimensions (or with no buffer yet) installs a freshly allocated buffer of
byte size `stride(width) * height` with a pool identity distinct from any
previous buffer's, bumps the allocation counter, and repaints. -/
theorem ensure_buffer_reuse_or_realloc (s : State) (i width height : Nat)
    (o : OutputState)
    (ho : s.outputs[i]? = some o)
    (hfresh : ∀ b, o.buffer = some b → b.poolId < s.nextAllocId) :
    (∀ b, o.buffer = some b → b.width = (width : Int) → b.height = (height : Int) →
        step s (Event.layerConfigure i width height) = (s, [Effect.repaint i]))
      ∧ ((∀ b, o.buffer = some b →
            ¬(b.width = (width : Int) ∧ b.height = (height : Int))) →
          ((step s (Event.layerConfigure i width height)).1.outputs[i]?
              = some { o with buffer := some (allocBuffer s.nextAllocId width height) }
            ∧ (step s (Event.layerConfigure i width height)).1.nextAllocId
                = s.nextAllocId + 1
            ∧ (allocBuffer s.nextAllocId width height).size
                = stride_for_width width * (height : Int)
            ∧ (∀ b, o.buffer = some b →
                b.poolId ≠ (allocBuffer s.nextAllocId width height).poolId)
            ∧ (step s (Event.layerConfigure i width height)).2 = [Effect.repaint i])) := by
  have hlt : i < s.outputs.length := (List.getElem?_eq_some.mp ho).1
  constructor
  · intro b hb hbw hbh
    simp [step, ho, hb, hbw, hbh, drawOnOutputEffects]
  · intro hdiff
    cases hb : o.buffer with
    | none =>
        refine ⟨?_, ?_, ?_, ?_, ?_⟩
        · simp [step, ho, hb, List.getElem?_set_eq_of_lt _ hlt]
        · simp [step, ho, hb]
        · rfl
        · intro b hbad
          cases hbad
        · simp [step, ho, hb, drawOnOutputEffects, List.getElem?_set_eq_of_lt _ hlt]
    | some b =>
        have hne : ¬(b.width = (width : Int) ∧ b.height = (height : Int)) := hdiff b hb
        refine ⟨?_, ?_, ?_, ?_, ?_⟩
        · simp [step, ho, hb, hne, List.getElem?_set_eq_of_lt _ hlt]
        · simp [step, ho, hb, hne]
        · rfl
        · intro b' hb'
          injection hb' with h'
          subst h'
          exact Nat.ne_of_lt (hfresh _ hb)
        · simp [step, ho, hb, hne, drawOnOutputEffects, List.getElem?_set_eq_of_lt _ hlt]

/-- Witness for C5: reconfiguring `bufState` with its current 100×50
dimensions reuses the buffer and only repaints. -/
theorem ensure_buffer_reuse_or_realloc_witness :
    step bufState (Event.layerConfigure 0 100 50) = (bufState, [Effect.repaint 0]) :=
  (ensure_buffer_reuse_or_realloc bufState 0 100 50
      { logical_pos := (0, 0), size := (0, 0), buffer := some (allocBuffer 0 100 50) }
      rfl
      (by intro b hb; cases hb; decide)).1
    (allocBuffer 0 100 50) rfl rfl rfl

/-- C6: a secondary-button event, an Escape key press, a surface-closed
event, and a too-small drag release each stop the loop with exit code 1
and print nothing; and whenever a dispatched event stops the loop, either
it exits 1 printing nothing, or it exits 0 — which happens only for a
primary-button release of a drag whose rectangle exceeds the 1×1
threshold, printing exactly the selection line. -/
theorem cancellation_paths_exit_one (s : State) (e : Event) (pressed : Bool)
    (hrun : s.running = true) :
    (step s (Event.pointerButton 273 pressed)
        = ({ s with running := false, exit_code := 1 }, []))
      ∧ (step s (Event.keyboardKey 1 true)
        = ({ s with running := false, exit_code := 1 }, []))
      ∧ (step s Event.layerClosed
        = ({ s with running := false, exit_code := 1 }, []))
      ∧ (∀ p, s.start_pos = some p →
          ¬(1 < (get_selection_box p s.current_pos).w
              ∧ 1 < (get_selection_box p s.current_pos).h) →
          step s (Event.pointerButton 272 false)
            = ({ s with start_pos := none, running := false, exit_code := 1 }, []))
      ∧ ((step s e).1.running = false →
          ((step s e).1.exit_code = 1 ∧ printsOf (step s e).2 = [])
          ∨ ((step s e).1.exit_code = 0
              ∧ ∃ p, s.start_pos = some p
                  ∧ e = Event.pointerButton 272 false
                  ∧ 1 < (get_selection_box p s.current_pos).w
                  ∧ 1 < (get_selection_box p s.current_pos).h
                  ∧ printsOf (step s e).2
                      = [formatSelection (get_selection_box p s.current_pos)])) := by
  refine ⟨by simp [step], by simp [step], by simp [step], ?_, ?_⟩
  · intro p hp hlt
    simp [step, hp, hlt]
  · intro hend
    cases e with
    | registryOutput => simp [step, hrun] at hend
    | pointerEnter i sx sy =>
        rcases ho : s.outputs[i]? with _ | o <;> simp [step, ho, hrun] at hend
    | pointerLeave => simp [step, hrun] at hend
    | pointerMotion sx sy =>
        rcases hc : s.current_output with _ | idx
        · simp [step, hc, hrun] at hend
        · rcases ho : s.outputs[idx]? with _ | o
          · simp [step, hc, ho, hrun] at hend
          · rcases hsp : s.start_pos with _ | p <;>
              simp [step, hc, ho, hsp, hrun] at hend
    | pointerButton b pr =>
        by_cases hb2 : b = 272
        · subst hb2
          cases pr with
          | true => simp [step, hrun] at hend
          | false =>
              rcases hp : s.start_pos with _ | p
              · simp [step, hp, hrun] at hend
              · by_cases hc : 1 < (get_selection_box p s.current_pos).w
                    ∧ 1 < (get_selection_box p s.current_pos).h
                · right
                  refine ⟨by simp [step, hp, hc], p, rfl, rfl, hc.1, hc.2, ?_⟩
                  simp [step, hp, hc, printsOf]
                · left
                  constructor
                  · simp [step, hp, hc]
                  · simp [step, hp, hc, printsOf]
        · by_cases hb3 : b = 273
          · subst hb3
            left
            constructor
            · simp [step]
            · simp [step, printsOf]
          · simp [step, hb2, hb3, hrun] at hend
    | keyboardKey k pr =>
        by_cases hk : k = 1 ∧ pr = true
        · left
          obtain ⟨hk1, hp1⟩ := hk
          subst hk1
          subst hp1
          constructor
          · simp [step]
          · simp [step, printsOf]
        · simp [step, hk, hrun] at hend
    | layerConfigure i w hgt =>
        rcases ho : s.outputs[i]? with _ | o
        · simp [step, ho, hrun] at hend
        · rcases hb : o.buffer with _ | b
          · simp [step, ho, hb, hrun] at hend
          · by_cases hd : b.width = (w : Int) ∧ b.height = (hgt : Int)
            · simp [step, ho, hb, hd, hrun] at hend
            · simp [step, ho, hb, hd, hrun] at hend
    | layerClosed =>
        left
        constructor
        · simp [step]
        · simp [step, printsOf]
    | outputMode i w hgt =>
        rcases ho : s.outputs[i]? with _ | o <;> simp [step, ho, hrun] at hend
    | xdgLogicalPosition i x y =>
        rcases ho : s.outputs[i]? with _ | o <;> simp [step, ho, hrun] at hend

/-- Witness for C6: a surface-closed event in the initial state ends the
loop with exit code 1 and no output. -/
theorem cancellation_paths_exit_one_witness :
    step initState Event.layerClosed
      = ({ initState with running := false, exit_code := 1 }, []) :=
  (cancellation_paths_exit_one initState Event.layerClosed true rfl).2.2.1

/-- C7 (amended): pointer motion emits no repaint while no drag is in
progress or no output is focused; while dragging with a focused output it
triggers the repaints of `State::draw`, i.e. of every output that has a
buffer, not only the focused one. -/
theorem motion_repaint_only_while_dragging (s : State) (sx sy : Rat) :
    (s.start_pos = none → (step s (Event.pointerMotion sx sy)).2 = [])
      ∧ (s.current_output = none → (step s (Event.pointerMotion sx sy)).2 = [])
      ∧ (∀ i o, s.current_output = some i → s.outputs[i]? = some o →
          s.start_pos.isSome = true →
          (step s (Event.pointerMotion sx sy)).2 = drawEffects s) := by
  refine ⟨?_, ?_, ?_⟩
  · intro h
    simp only [step]
    cases hc : s.current_output with
    | none => rfl
    | some idx =>
        cases ho : s.outputs[idx]? with
        | none => simp [ho]
        | some o => simp [ho, h]
  · intro h
    simp [step, h]
  · intro i o hc ho hsp
    simp [step, hc, ho, hsp, drawEffects]

/-- Witness for C7: motion in the idle initial state repaints nothing. -/
theorem motion_repaint_only_while_dragging_witness :
    (step initState (Event.pointerMotion 3 4)).2 = [] :=
  (motion_repaint_only_while_dragging initState 3 4).1 rfl

/-- Counterexample for C7 as stated: in `twoOutputDragState` the focused
output is 0, a drag is in progress, and a motion event repaints output 1
as well — the repaint is not restricted to the focused output. -/
theorem motion_repaints_unfocused_output_cex :
    twoOutputDragState.current_output = some 0
      ∧ twoOutputDragState.start_pos.isSome = true
      ∧ (step twoOutputDragState (Event.pointerMotion 7 7)).2
          = [Effect.repaint 0, Effect.repaint 1] := by
  refine ⟨?_, ?_, ?_⟩ <;>
  · norm_num [twoOutputDragState, run, step, initState, newOutputState,
      allocBuffer, drawEffects, drawOnOutputEffects]
    all_goals decide

/-- C8: a pointer leave event clears `current_output` and changes nothing
else (the drag anchor, the cursor and `running` are untouched, nothing is
printed or repainted); pointer motion while no output is focused is a
complete no-op, keeping the last known global position. -/
theorem leave_clears_focus_keeps_drag (s : State) (sx sy : Rat) :
    ((step s Event.pointerLeave).1.current_output = none
      ∧ (step s Event.pointerLeave).1.start_pos = s.start_pos
      ∧ (step s Event.pointerLeave).1.running = s.running
      ∧ (step s Event.pointerLeave).1.current_pos = s.current_pos
      ∧ (step s Event.pointerLeave).2 = [])
      ∧ (s.current_output = none → step s (Event.pointerMotion sx sy) = (s, [])) := by
  refine ⟨⟨rfl, rfl, rfl, rfl, rfl⟩, ?_⟩
  intro h
  simp [step, h]

/-- Witness for C8: unfocused motion in the initial state is a no-op. -/
theorem leave_clears_focus_keeps_drag_witness :
    step initState (Event.pointerMotion 3 4) = (initState, []) :=
  (leave_clears_focus_keeps_drag initState 3 4).2 rfl

/-- Counterexample for C9 as stated: with every capability missing the
check fails, but the diagnostic written to standard error is two lines,
not a single line. -/
theorem capability_missing_two_diagnostic_lines_cex :
    (capabilityCheck allMissing).isSome = true
      ∧ ((capabilityCheck allMissing).getD ([], 0)).1.length = 2 := by decide

set_option maxRecDepth 4096 in
/-- C9 (amended): if any required capability is missing after the first
roundtrip, the program emits exactly two stderr lines — a fixed banner and
a `Missing:` line containing precisely the names of the absent
capabilities — together with exit status 1, and the check passes (startup
continues to show the overlay) iff all five capabilities are present. -/
theorem capability_check_reports_missing (c sh l se x : Bool) :
    ((c = false ∨ sh = false ∨ l = false ∨ se = false ∨ x = false) →
        capabilityCheck (mkGlobals c sh l se x)
          = some (["Error: Your compositor does not support the required Wayland protocols.",
                   missingLine (mkGlobals c sh l se x)], 1)
          ∧ (("wl_compositor".data <:+: (missingLine (mkGlobals c sh l se x)).data) ↔ c = false)
          ∧ (("wl_shm".data <:+: (missingLine (mkGlobals c sh l se x)).data) ↔ sh = false)
          ∧ (("zwlr_layer_shell_v1".data <:+: (missingLine (mkGlobals c sh l se x)).data) ↔ l = false)
          ∧ (("wl_seat".data <:+: (missingLine (mkGlobals c sh l se x)).data) ↔ se = false)
          ∧ (("zxdg_output_manager_v1".data <:+: (missingLine (mkGlobals c sh l se x)).data) ↔ x = false))
      ∧ (c = true ∧ sh = true ∧ l = true ∧ se = true ∧ x = true →
          capabilityCheck (mkGlobals c sh l se x) = none) := by
  cases c <;> cases sh <;> cases l <;> cases se <;> cases x <;> decide

/-- Witness for C9: with only `wl_compositor` missing, the check reports
the two diagnostic lines and exit status 1. -/
theorem capability_check_reports_missing_witness :
    capabilityCheck (mkGlobals false true true true true)
      = some (["Error: Your compositor does not support the required Wayland protocols.",
               missingLine (mkGlobals false true true true true)], 1) :=
  ((capability_check_reports_missing false true true true true).1 (Or.inl rfl)).1

/-- C10: before any pointer enter/motion event, the global cursor position
is `(0, 0)` (never undefined); a primary-button press then anchors the drag
at `(0, 0)`, and an immediate release is cancelled by the size threshold:
exit code 1, nothing printed. -/
theorem cursor_origin_before_pointer_events (es : List Event)
    (h : ∀ e ∈ es, touchesCursor e = false) :
    initState.current_pos = (0, 0)
      ∧ (run initState es).1.current_pos = (0, 0)
      ∧ (step (run initState es).1 (Event.pointerButton 272 true)).1.start_pos
          = some (0, 0)
      ∧ (run initState clickScene).1.exit_code = 1
      ∧ (run initState clickScene).1.running = false
      ∧ printsOf (run initState clickScene).2 = [] := by
  have h2 : (run initState es).1.current_pos = (0, 0) :=
    run_current_pos_of_no_cursor_events initState es h
  refine ⟨rfl, h2, ?_, ?_, ?_, ?_⟩
  · simp [step, h2]
  · norm_num [run, step, clickScene, initState, get_selection_box, printsOf]
  · norm_num [run, step, clickScene, initState, get_selection_box, printsOf]
  · norm_num [run, step, clickScene, initState, get_selection_box, printsOf]

/-- Witness for C10: after a surface-closed event (no pointer events), the
cursor still reads `(0, 0)`. -/
theorem cursor_origin_before_pointer_events_witness :
    (run initState [Event.layerClosed]).1.current_pos = (0, 0) :=
  (cursor_origin_before_pointer_events [Event.layerClosed] (by decide)).2.1
